import Mathlib

/-!
Shallow embedding of the transaction-processing core of the
Django-Vue-Fintech backend: accounts, transactions, transaction logs,
the transaction processor, cancellation, the fee calculator and the
recurring-transaction scheduler.

Monetary amounts (Python `Decimal`) are modelled as exact rationals `ℚ`.
Dates are records of year/month/day; `dateutil.relativedelta` month and
year arithmetic is modelled with day-of-month clamping.  The Django ORM
persistence of a single transaction row is modelled as a pair of the
in-memory object and the persisted row, so that the `pre_save` signal
(which compares the persisted status with the new one) can be expressed
faithfully.  Timestamps (`timezone.now()`) are passed in as an explicit
parameter.
-/

namespace Fintech

/-- Model of `accounts/models.py` `Account`: the fields the processing logic reads. -/
structure Account where
  balance : ℚ
  available_balance : ℚ
  status : String
deriving Repr, DecidableEq

/-- Model of `Account.save`: clamps `available_balance` to `balance` before persisting
(`if self.available_balance > self.balance: self.available_balance = self.balance`). -/
def Account.save (a : Account) : Account :=
  if a.available_balance > a.balance then
    { a with available_balance := a.balance }
  else a

/-- Model of `Account.can_debit`: `self.available_balance >= amount and self.status == 'active'`. -/
def Account.can_debit (a : Account) (amount : ℚ) : Bool :=
  decide (a.available_balance ≥ amount) && decide (a.status = "active")

/-- Model of `Account.credit`: adds `amount` to both balances, then saves. -/
def Account.credit (a : Account) (amount : ℚ) : Account :=
  Account.save { a with
    balance := a.balance + amount,
    available_balance := a.available_balance + amount }

/-- Model of `Account.debit`: if `can_debit`, subtracts `amount` from both balances,
saves and returns `true`; otherwise returns `false` leaving the account as is. -/
def Account.debit (a : Account) (amount : ℚ) : Bool × Account :=
  if a.can_debit amount then
    (true, Account.save { a with
      balance := a.balance - amount,
      available_balance := a.available_balance - amount })
  else (false, a)

/-- Model of `core/utils.py` `fee_rates` dictionary: `transaction_type ↦ rate`
(`dict.get` returns `none` for a missing key). -/
def fee_rates (transaction_type : String) : Option ℚ :=
  if transaction_type = "transfer" then some (1/100)
  else if transaction_type = "payment" then some (5/1000)
  else if transaction_type = "withdrawal" then some (2/100)
  else none

/-- Model of `core/utils.py` `calculate_transaction_fee`:
`max(Decimal("1.00"), amount * fee_rates.get(transaction_type, Decimal("0.01")))`. -/
def calculate_transaction_fee (amount : ℚ) (transaction_type : String) : ℚ :=
  let base_fee : ℚ := 1
  let calculated_fee : ℚ := amount * (fee_rates transaction_type).getD (1/100)
  max base_fee calculated_fee

/-- Model of `transactions/models.py` `Transaction`: the fields the processing logic
reads and writes. -/
structure Transaction where
  amount : ℚ
  transaction_type : String
  status : String
  description : String
  category : String
  recipient_account_number : String
  fee_amount : ℚ
  processed_at : Option Nat
  failure_reason : String
deriving Repr, DecidableEq

/-- Model of `transactions/models.py` `TransactionLog`: one audit entry. -/
structure TransactionLog where
  previous_status : String
  new_status : String
  message : String
  processed_by : String
deriving Repr, DecidableEq

/-- The persistence state of one transaction row: the in-memory object
(`mem`), the row currently in the database (`db`), and the log table
restricted to this transaction, in insertion order. -/
structure TxState where
  mem : Transaction
  db : Transaction
  logs : List TransactionLog
deriving Repr, DecidableEq

/-- The log entry written by the `pre_save` receiver
`log_transaction_status_change` in `transactions/signals.py`. -/
def signalLog (old new : String) : TransactionLog :=
  { previous_status := old, new_status := new,
    message := "Status changed from " ++ old ++ " to " ++ new,
    processed_by := "system" }

/-- Model of `Transaction.save()` on an existing row: the `pre_save` signal compares
the persisted status with the incoming one and appends one log entry when
they differ; then the row is persisted. -/
def TxState.save (s : TxState) : TxState :=
  { mem := s.mem, db := s.mem,
    logs :=
      if s.db.status ≠ s.mem.status then
        s.logs ++ [signalLog s.db.status s.mem.status]
      else s.logs }

/-- Model of `Transaction.objects.create(...)`: persists the new row; the `post_save`
receiver `create_initial_transaction_log` appends the creation entry with
`previous_status = ""`. -/
def TxState.create (t : Transaction) : TxState :=
  { mem := t, db := t,
    logs := [{ previous_status := "", new_status := t.status,
               message := "Transaction created", processed_by := "system" }] }

/-- A `TransactionLog.objects.create(...)` call made explicitly by the
service (`processed_by="system"`). -/
def manualLog (prev new msg : String) : TransactionLog :=
  { previous_status := prev, new_status := new, message := msg,
    processed_by := "system" }

/-- The tail of `TransactionService.process_transaction` common to all
success paths: mark completed with `processed_at = now`, save (firing the
signal), then write the manual completion log entry. -/
def completeTransaction (now : Nat) (account : Account) (s : TxState) :
    Bool × Account × TxState :=
  let s := TxState.save { s with mem := { s.mem with status := "completed", processed_at := some now } }
  let s := { s with logs := s.logs ++
    [manualLog "processing" "completed" "Transaction completed successfully"] }
  (true, account, s)

/-- Model of `TransactionService.process_transaction` (`transactions/services.py`
lines 16–98), on the happy control flow (no persistence exceptions):
write the manual "processing started" entry, set and save status
`processing`, then branch on `transaction_type`. -/
def process_transaction (now : Nat) (account : Account) (s : TxState) :
    Bool × Account × TxState :=
  let s := { s with logs := s.logs ++
    [manualLog s.mem.status "processing" "Transaction processing started"] }
  let s := TxState.save { s with mem := { s.mem with status := "processing" } }
  if s.mem.transaction_type = "debit" then
    let total_amount := s.mem.amount + s.mem.fee_amount
    if account.can_debit total_amount = false then
      let s := TxState.save { s with mem := { s.mem with status := "failed", failure_reason := "Insufficient funds" } }
      let s := { s with logs := s.logs ++
        [manualLog "processing" "failed" "Transaction failed: Insufficient funds"] }
      (false, account, s)
    else
      let account := (account.debit total_amount).2
      completeTransaction now account s
  else if s.mem.transaction_type = "credit" then
    let net_amount := s.mem.amount - s.mem.fee_amount
    let account := account.credit net_amount
    completeTransaction now account s
  else
    completeTransaction now account s

/-- Model of `Transaction.can_cancel`: `self.status in ['pending', 'processing']`. -/
def Transaction.can_cancel (t : Transaction) : Bool :=
  t.status = "pending" || t.status = "processing"

/-- Model of `Transaction.cancel(reason)`: if cancellable, set status `cancelled`
and the failure reason, save (firing the signal) and return `true`;
otherwise return `false` without touching anything. -/
def TxState.cancel (s : TxState) (reason : String) : Bool × TxState :=
  if s.mem.can_cancel then
    (true, TxState.save { s with mem := { s.mem with status := "cancelled", failure_reason := reason } })
  else (false, s)

/-- Calendar date (`datetime.date`). -/
structure Date where
  year : Nat
  month : Nat
  day : Nat
deriving Repr, DecidableEq

/-- Gregorian leap-year rule. -/
def isLeapYear (y : Nat) : Bool :=
  (y % 4 = 0 && y % 100 ≠ 0) || y % 400 = 0

/-- Number of days in a month of a given year. -/
def daysInMonth (y m : Nat) : Nat :=
  if m = 2 then (if isLeapYear y then 29 else 28)
  else if m = 4 || m = 6 || m = 9 || m = 11 then 30
  else 31

/-- The day after a given date. -/
def Date.nextDay (d : Date) : Date :=
  if d.day < daysInMonth d.year d.month then { d with day := d.day + 1 }
  else if d.month < 12 then { year := d.year, month := d.month + 1, day := 1 }
  else { year := d.year + 1, month := 1, day := 1 }

/-- Model of `date + timedelta(days=n)`. -/
def Date.addDays (d : Date) : Nat → Date
  | 0 => d
  | n + 1 => (d.nextDay).addDays n

/-- Model of `date + relativedelta(months=k)`: advance the month, clamping the day
of month to the length of the target month. -/
def Date.addMonths (d : Date) (k : Nat) : Date :=
  let m0 := d.month - 1 + k
  let y := d.year + m0 / 12
  let m := m0 % 12 + 1
  { year := y, month := m, day := min d.day (daysInMonth y m) }

/-- Model of `date + relativedelta(years=k)`: advance the year, clamping the day of
month (Feb 29 to Feb 28 in a non-leap target year). -/
def Date.addYears (d : Date) (k : Nat) : Date :=
  { year := d.year + k, month := d.month,
    day := min d.day (daysInMonth (d.year + k) d.month) }

/-- Strict `<` on dates (lexicographic year, month, day). -/
def Date.lt (a b : Date) : Bool :=
  a.year < b.year ||
  (a.year = b.year && (a.month < b.month ||
    (a.month = b.month && a.day < b.day)))

/-- Model of `transactions/models.py` `RecurringTransaction`: the fields the
scheduler reads and writes. -/
structure RecurringTransaction where
  amount : ℚ
  description : String
  category : String
  recipient_account_number : String
  frequency : String
  start_date : Date
  end_date : Option Date
  next_execution_date : Date
  status : String
  execution_count : Nat
  max_executions : Option Nat
deriving Repr, DecidableEq

/-- Python truthiness of the optional `max_executions` field:
`None` and `0` are falsy. -/
def optNatTruthy : Option Nat → Bool
  | none => false
  | some n => n ≠ 0

/-- Model of `RecurringTransaction.can_execute` with `today` passed explicitly:
active, due, under the execution limit (when the limit is truthy), and not
past `end_date` (when set). -/
def RecurringTransaction.can_execute
    (r : RecurringTransaction) (today : Date) : Bool :=
  if r.status ≠ "active" then false
  else if Date.lt today r.next_execution_date then false
  else if optNatTruthy r.max_executions &&
       decide (r.execution_count ≥ (r.max_executions).getD 0) then false
  else if (match r.end_date with
           | some e => Date.lt e today
           | none => false) then false
  else true

/-- Model of `RecurringTransaction.calculate_next_execution_date`: advance
`next_execution_date` by one period of `frequency`. -/
def RecurringTransaction.calculate_next_execution_date
    (r : RecurringTransaction) : Date :=
  let current_date := r.next_execution_date
  if r.frequency = "daily" then current_date.addDays 1
  else if r.frequency = "weekly" then current_date.addDays 7
  else if r.frequency = "monthly" then current_date.addMonths 1
  else if r.frequency = "quarterly" then current_date.addMonths 3
  else if r.frequency = "yearly" then current_date.addYears 1
  else current_date

/-- Model of `TransactionService.create_transfer`: a pending debit transaction whose
fee is computed with the `'transfer'` rate (the category is stored but the
fee call hardcodes `'transfer'`). -/
def create_transfer (amount : ℚ) (description category recipient : String) :
    Transaction :=
  { amount := amount, transaction_type := "debit", status := "pending",
    description := description, category := category,
    recipient_account_number := recipient,
    fee_amount := calculate_transaction_fee amount "transfer",
    processed_at := none, failure_reason := "" }

/-- Model of `RecurringTransactionService.execute_recurring_transaction` with
`today`/`now` passed explicitly: guard on `can_execute`, spawn a transfer,
process it, and only on success increment the count, advance the schedule
and possibly complete the definition.  Returns the success flag, the
updated definition and account, and the spawned transaction's state when
one was created. -/
def execute_recurring_transaction (today : Date) (now : Nat)
    (r : RecurringTransaction) (account : Account) :
    Bool × RecurringTransaction × Account × Option TxState :=
  if r.can_execute today = false then (false, r, account, none)
  else
    let t := create_transfer r.amount ("Recurring: " ++ r.description)
      r.category r.recipient_account_number
    let s := TxState.create t
    let res := process_transaction now account s
    let success := res.1
    let account := res.2.1
    let s := res.2.2
    if success then
      let r := { r with execution_count := r.execution_count + 1 }
      let r := { r with
        next_execution_date := r.calculate_next_execution_date }
      let r :=
        if optNatTruthy r.max_executions &&
           decide (r.execution_count ≥ (r.max_executions).getD 0) then
          { r with status := "completed" }
        else r
      (success, r, account, some s)
    else (success, r, account, some s)

/-! Concrete fixtures used to instantiate the verification theorems. -/

/-- An active account with both balances zero. -/
def acct0 : Account := { balance := 0, available_balance := 0, status := "active" }

/-- An active account with both balances 10.00. -/
def acct10 : Account := { balance := 10, available_balance := 10, status := "active" }

/-- An active account with both balances 100.00. -/
def acct100 : Account := { balance := 100, available_balance := 100, status := "active" }

/-- An active account with both balances 200.00. -/
def acct200 : Account := { balance := 200, available_balance := 200, status := "active" }

/-- A pending debit transfer of a given amount and fee. -/
def debitTx (amount fee : ℚ) : Transaction :=
  { amount := amount, transaction_type := "debit", status := "pending",
    description := "transfer out", category := "transfer",
    recipient_account_number := "ACC12345678", fee_amount := fee,
    processed_at := none, failure_reason := "" }

/-- A pending credit deposit of a given amount and fee. -/
def creditTx (amount fee : ℚ) : Transaction :=
  { amount := amount, transaction_type := "credit", status := "pending",
    description := "deposit in", category := "deposit",
    recipient_account_number := "", fee_amount := fee,
    processed_at := none, failure_reason := "" }


/-- A transaction in the terminal `completed` state. -/
def completedTx : Transaction := { debitTx 50 1 with status := "completed" }

/-- The persistence state of a completed transaction with an empty log. -/
def completedState : TxState := { mem := completedTx, db := completedTx, logs := [] }

/-- An active recurring definition due on its `next` date, with a given
frequency. -/
def recWith (freq : String) (next : Date) : RecurringTransaction :=
  { amount := 50, description := "subscription", category := "transfer",
    recipient_account_number := "ACC12345678", frequency := freq,
    start_date := next, end_date := none, next_execution_date := next,
    status := "active", execution_count := 0, max_executions := none }

/-- An active monthly recurring definition limited to one execution. -/
def recOnce : RecurringTransaction :=
  { recWith "monthly" { year := 2024, month := 1, day := 31 } with
    max_executions := some 1 }

/-- An active monthly recurring definition with `max_executions = 0`. -/
def recZero : RecurringTransaction :=
  { recWith "monthly" { year := 2024, month := 1, day := 31 } with
    max_executions := some 0 }

/-- The rate table as the specification states it: 1% for transfers, 0.5%
for payments, 2% for withdrawals and 1% for any other category. -/
def spec_fee_rate (category : String) : ℚ :=
  if category = "transfer" then 1/100
  else if category = "payment" then 5/1000
  else if category = "withdrawal" then 2/100
  else 1/100


lemma process_debit_ok (now : Nat) (acc : Account) (s : TxState)
    (htype : s.mem.transaction_type = "debit")
    (hcan : acc.can_debit (s.mem.amount + s.mem.fee_amount) = true) :
    (process_transaction now acc s).1 = true ∧
    (process_transaction now acc s).2.1 = (acc.debit (s.mem.amount + s.mem.fee_amount)).2 ∧
    (process_transaction now acc s).2.2.mem.status = "completed" ∧
    (process_transaction now acc s).2.2.mem.processed_at = some now := by
  simp [process_transaction, completeTransaction, TxState.save, htype, hcan]

lemma process_credit_ok (now : Nat) (acc : Account) (s : TxState)
    (htype : s.mem.transaction_type = "credit") :
    (process_transaction now acc s).1 = true ∧
    (process_transaction now acc s).2.1 = acc.credit (s.mem.amount - s.mem.fee_amount) ∧
    (process_transaction now acc s).2.2.mem.status = "completed" ∧
    (process_transaction now acc s).2.2.mem.processed_at = some now := by
  simp [process_transaction, completeTransaction, TxState.save, htype]

lemma process_debit_fail (now : Nat) (acc : Account) (s : TxState)
    (htype : s.mem.transaction_type = "debit")
    (hcant : acc.can_debit (s.mem.amount + s.mem.fee_amount) = false) :
    (process_transaction now acc s).1 = false ∧
    (process_transaction now acc s).2.1 = acc ∧
    (process_transaction now acc s).2.2.mem.status = "failed" ∧
    (process_transaction now acc s).2.2.mem.failure_reason = "Insufficient funds" ∧
    manualLog "processing" "failed" "Transaction failed: Insufficient funds" ∈
      (process_transaction now acc s).2.2.logs ∧
    signalLog "processing" "failed" ∈ (process_transaction now acc s).2.2.logs := by
  simp [process_transaction, completeTransaction, TxState.save, htype, hcant, signalLog]

lemma debit_balances (a : Account) (amt : ℚ)
    (hcan : a.can_debit amt = true) (hinv : a.available_balance ≤ a.balance) :
    (a.debit amt).2.balance = a.balance - amt ∧
    (a.debit amt).2.available_balance = a.available_balance - amt := by
  simp [Account.debit, Account.save, hcan, hinv.not_lt]

lemma credit_balances (a : Account) (amt : ℚ) (hinv : a.available_balance ≤ a.balance) :
    (a.credit amt).balance = a.balance + amt ∧
    (a.credit amt).available_balance = a.available_balance + amt := by
  simp [Account.credit, Account.save, hinv.not_lt]


/-- C3: a successful `process_transaction` run sets status `completed` with
`processed_at = now` and moves the balances by the net amount: a debit
lowers both balances by `amount + fee_amount`, a credit raises both by
`amount - fee_amount`. -/
theorem C3_process_success (now : Nat) (acc : Account) (s : TxState)
    (hinv : acc.available_balance ≤ acc.balance) :
    (s.mem.transaction_type = "debit" →
      acc.can_debit (s.mem.amount + s.mem.fee_amount) = true →
      (process_transaction now acc s).1 = true ∧
      (process_transaction now acc s).2.2.mem.status = "completed" ∧
      (process_transaction now acc s).2.2.mem.processed_at = some now ∧
      (process_transaction now acc s).2.1.balance
        = acc.balance - (s.mem.amount + s.mem.fee_amount) ∧
      (process_transaction now acc s).2.1.available_balance
        = acc.available_balance - (s.mem.amount + s.mem.fee_amount)) ∧
    (s.mem.transaction_type = "credit" →
      (process_transaction now acc s).1 = true ∧
      (process_transaction now acc s).2.2.mem.status = "completed" ∧
      (process_transaction now acc s).2.2.mem.processed_at = some now ∧
      (process_transaction now acc s).2.1.balance
        = acc.balance + (s.mem.amount - s.mem.fee_amount) ∧
      (process_transaction now acc s).2.1.available_balance
        = acc.available_balance + (s.mem.amount - s.mem.fee_amount)) := by
  constructor
  · intro htype hcan
    obtain ⟨h1, h2, h3, h4⟩ := process_debit_ok now acc s htype hcan
    obtain ⟨b1, b2⟩ := debit_balances acc (s.mem.amount + s.mem.fee_amount) hcan hinv
    exact ⟨h1, h3, h4, by rw [h2, b1], by rw [h2, b2]⟩
  · intro htype
    obtain ⟨h1, h2, h3, h4⟩ := process_credit_ok now acc s htype
    obtain ⟨b1, b2⟩ := credit_balances acc (s.mem.amount - s.mem.fee_amount) hinv
    exact ⟨h1, h3, h4, by rw [h2, b1], by rw [h2, b2]⟩

/-- Witness for C3: the spec scenario — balance 100.00, debit of 50.00 with
fee 1.00 completes and leaves both balances at 49.00. -/
theorem C3_process_success_witness :
    (process_transaction 3 acct100 (TxState.create (debitTx 50 1))).1 = true ∧
    (process_transaction 3 acct100 (TxState.create (debitTx 50 1))).2.2.mem.status = "completed" ∧
    (process_transaction 3 acct100 (TxState.create (debitTx 50 1))).2.1.balance = 49 ∧
    (process_transaction 3 acct100 (TxState.create (debitTx 50 1))).2.1.available_balance = 49 := by
  have h := (C3_process_success 3 acct100 (TxState.create (debitTx 50 1))
    (by norm_num [acct100])).1 rfl
    (by norm_num [Account.can_debit, acct100, debitTx, TxState.create])
  refine ⟨h.1, h.2.1, ?_, ?_⟩
  · have := h.2.2.2.1
    norm_num [acct100, debitTx, TxState.create] at this
    exact this
  · have := h.2.2.2.2
    norm_num [acct100, debitTx, TxState.create] at this
    exact this

/-- C4: a debit whose account cannot cover `amount + fee_amount` fails with
reason "Insufficient funds", writes a log entry, returns failure and leaves
the account untouched. -/
theorem C4_insufficient_funds (now : Nat) (acc : Account) (s : TxState)
    (htype : s.mem.transaction_type = "debit")
    (hcant : acc.can_debit (s.mem.amount + s.mem.fee_amount) = false) :
    (process_transaction now acc s).1 = false ∧
    (process_transaction now acc s).2.2.mem.status = "failed" ∧
    (process_transaction now acc s).2.2.mem.failure_reason = "Insufficient funds" ∧
    (process_transaction now acc s).2.1 = acc ∧
    manualLog "processing" "failed" "Transaction failed: Insufficient funds" ∈
      (process_transaction now acc s).2.2.logs := by
  obtain ⟨h1, h2, h3, h4, h5, h6⟩ := process_debit_fail now acc s htype hcant
  exact ⟨h1, h3, h4, h2, h5⟩

/-- Witness for C4: the spec scenario — balance 10.00, debit of 50.00 fails
and the balance stays 10.00. -/
theorem C4_insufficient_funds_witness :
    (process_transaction 3 acct10 (TxState.create (debitTx 50 1))).1 = false ∧
    (process_transaction 3 acct10 (TxState.create (debitTx 50 1))).2.1 = acct10 ∧
    (process_transaction 3 acct10 (TxState.create (debitTx 50 1))).2.2.mem.status = "failed" := by
  have h := C4_insufficient_funds 3 acct10 (TxState.create (debitTx 50 1)) rfl
    (by norm_num [Account.can_debit, acct10, debitTx, TxState.create])
  exact ⟨h.1, h.2.2.2.1, h.2.1⟩

/-- C5: `credit` and `debit` preserve the invariant
`available_balance ≤ balance`, and `debit` succeeds exactly when the
account is active and the available balance covers the requested amount. -/
theorem C5_balance_invariant (a : Account) (amt : ℚ)
    (hinv : a.available_balance ≤ a.balance) :
    (a.credit amt).available_balance ≤ (a.credit amt).balance ∧
    (a.debit amt).2.available_balance ≤ (a.debit amt).2.balance ∧
    ((a.debit amt).1 = true ↔ a.status = "active" ∧ amt ≤ a.available_balance) := by
  refine ⟨?_, ?_, ?_⟩
  · obtain ⟨b1, b2⟩ := credit_balances a amt hinv
    rw [b1, b2]
    linarith
  · rcases h : a.can_debit amt with hf | ht
    · simp [Account.debit, h, hinv]
    · obtain ⟨b1, b2⟩ := debit_balances a amt h hinv
      rw [b1, b2]
      have hle : amt ≤ a.available_balance := by
        simp only [Account.can_debit, Bool.and_eq_true, decide_eq_true_eq, ge_iff_le] at h
        exact h.1
      linarith
  · constructor
    · intro h
      cases hc : a.can_debit amt with
      | false => simp [Account.debit, hc] at h
      | true =>
        simp only [Account.can_debit, Bool.and_eq_true, decide_eq_true_eq, ge_iff_le] at hc
        exact ⟨hc.2, hc.1⟩
    · rintro ⟨h1, h2⟩
      have hc : a.can_debit amt = true := by
        simp [Account.can_debit, h1, ge_iff_le, h2]
      simp [Account.debit, hc]

/-- Witness for C5: the invariant and the success condition on an active
account with both balances 100.00 and a requested amount of 30.00. -/
theorem C5_balance_invariant_witness :
    (acct100.credit 30).available_balance ≤ (acct100.credit 30).balance ∧
    (acct100.debit 30).1 = true := by
  have h := C5_balance_invariant acct100 30 (by norm_num [acct100])
  exact ⟨h.1, h.2.2.mpr (by norm_num [acct100])⟩

/-- C6: the implemented fee equals the specified
`max(1.00, amount x rate)` for every amount and category. -/
theorem C6_fee_formula (amount : ℚ) (category : String) :
    calculate_transaction_fee amount category
      = max 1 (amount * spec_fee_rate category) := by
  simp only [calculate_transaction_fee, fee_rates, spec_fee_rate]
  split_ifs <;> simp


/-- C1: the claim fails on the code — `process_transaction` never guards on
the starting status, so re-processing an already `completed` debit
transaction debits the account a second time.  Starting from balance
200.00 and a debit of 50.00 with fee 1.00, the first run leaves 149.00 and
a second run on the completed transaction succeeds again and leaves 98.00
instead of rejecting or no-opping. -/
theorem C1_process_twice_double_debits :
    (process_transaction 1 acct200 (TxState.create (debitTx 50 1))).1 = true ∧
    (process_transaction 1 acct200 (TxState.create (debitTx 50 1))).2.1.balance = 149 ∧
    (process_transaction 1 acct200 (TxState.create (debitTx 50 1))).2.2.mem.status = "completed" ∧
    (process_transaction 2
      (process_transaction 1 acct200 (TxState.create (debitTx 50 1))).2.1
      (process_transaction 1 acct200 (TxState.create (debitTx 50 1))).2.2).1 = true ∧
    (process_transaction 2
      (process_transaction 1 acct200 (TxState.create (debitTx 50 1))).2.1
      (process_transaction 1 acct200 (TxState.create (debitTx 50 1))).2.2).2.1.balance = 98 ∧
    (process_transaction 2
      (process_transaction 1 acct200 (TxState.create (debitTx 50 1))).2.1
      (process_transaction 1 acct200 (TxState.create (debitTx 50 1))).2.2).2.1.available_balance = 98 := by
  norm_num [process_transaction, TxState.create, TxState.save, completeTransaction,
    Account.can_debit, Account.debit, Account.save, acct200, debitTx, manualLog, signalLog]

/-- C2 counterexample: the claim "every status change produces exactly one
TransactionLog entry" is false — processing a pending credit writes TWO
entries for the single pending→processing change (the service's manual
entry and the `pre_save` signal entry), as the full log of a concrete run
shows. -/
theorem C2_two_entries_per_status_change :
    (process_transaction 5 acct0 (TxState.create (creditTx 100 0))).2.2.logs =
      [{ previous_status := "", new_status := "pending",
         message := "Transaction created", processed_by := "system" },
       manualLog "pending" "processing" "Transaction processing started",
       signalLog "pending" "processing",
       signalLog "processing" "completed",
       manualLog "processing" "completed" "Transaction completed successfully"] ∧
    ((process_transaction 5 acct0 (TxState.create (creditTx 100 0))).2.2.logs.countP
      (fun l => l.new_status == "processing")) = 2 := by
  have h1 : (process_transaction 5 acct0 (TxState.create (creditTx 100 0))).2.2.logs =
      [{ previous_status := "", new_status := "pending",
         message := "Transaction created", processed_by := "system" },
       manualLog "pending" "processing" "Transaction processing started",
       signalLog "pending" "processing",
       signalLog "processing" "completed",
       manualLog "processing" "completed" "Transaction completed successfully"] := by
    simp [process_transaction, TxState.create, TxState.save, completeTransaction,
      Account.credit, Account.save, acct0, creditTx, manualLog, signalLog]
  refine ⟨h1, ?_⟩
  rw [h1]
  rfl

/-- C2 (amended): every status change persisted through `Transaction.save`
produces exactly one signal-generated log entry whose `previous_status` is
the previously persisted status (and none when the status is unchanged),
and the creation hook writes exactly one entry with `previous_status = ""`;
the processing service additionally writes its own manual entry per change,
so a change made through it yields two entries, both with the correct
`previous_status`. -/
theorem C2_save_logs_exactly_once (s : TxState) (t : Transaction) :
    (s.db.status ≠ s.mem.status →
      (TxState.save s).logs = s.logs ++ [signalLog s.db.status s.mem.status]) ∧
    (s.db.status = s.mem.status → (TxState.save s).logs = s.logs) ∧
    (TxState.create t).logs =
      [{ previous_status := "", new_status := t.status,
         message := "Transaction created", processed_by := "system" }] := by
  refine ⟨fun h => ?_, fun h => ?_, rfl⟩
  · simp [TxState.save, h]
  · simp [TxState.save, h]

/-- Witness for the amended C2: saving a pending transaction whose
in-memory status is `processing` appends exactly the one signal entry. -/
theorem C2_save_logs_exactly_once_witness :
    (TxState.save { mem := { debitTx 50 1 with status := "processing" },
                    db := debitTx 50 1, logs := [] }).logs =
      [signalLog "pending" "processing"] := by
  have h := (C2_save_logs_exactly_once
    { mem := { debitTx 50 1 with status := "processing" },
      db := debitTx 50 1, logs := [] } (debitTx 50 1)).1 (by simp [debitTx])
  simpa [debitTx] using h


/-- C7: `calculate_next_execution_date` advances by exactly one period —
one day for daily, seven days for weekly, and clamped calendar arithmetic
for monthly, quarterly and yearly — and handles month-end rollover:
monthly from 2024-01-31 yields 2024-02-29 (leap year), from 2023-01-31
yields 2023-02-28, quarterly from 2024-01-31 yields 2024-04-30, yearly
from 2024-02-29 yields 2025-02-28; a month step always lands on a valid
day of a valid month. -/
theorem C7_advance_date :
    (∀ next : Date, (recWith "daily" next).calculate_next_execution_date = next.addDays 1) ∧
    (∀ next : Date, (recWith "weekly" next).calculate_next_execution_date = next.addDays 7) ∧
    (∀ next : Date, (recWith "monthly" next).calculate_next_execution_date = next.addMonths 1) ∧
    (∀ next : Date, (recWith "quarterly" next).calculate_next_execution_date = next.addMonths 3) ∧
    (∀ next : Date, (recWith "yearly" next).calculate_next_execution_date = next.addYears 1) ∧
    (recWith "monthly" { year := 2024, month := 1, day := 31 }).calculate_next_execution_date
      = { year := 2024, month := 2, day := 29 } ∧
    (recWith "monthly" { year := 2023, month := 1, day := 31 }).calculate_next_execution_date
      = { year := 2023, month := 2, day := 28 } ∧
    (recWith "quarterly" { year := 2024, month := 1, day := 31 }).calculate_next_execution_date
      = { year := 2024, month := 4, day := 30 } ∧
    (recWith "yearly" { year := 2024, month := 2, day := 29 }).calculate_next_execution_date
      = { year := 2025, month := 2, day := 28 } ∧
    (recWith "daily" { year := 2024, month := 1, day := 31 }).calculate_next_execution_date
      = { year := 2024, month := 2, day := 1 } ∧
    (∀ d : Date, ∀ k : Nat,
      (d.addMonths k).day ≤ daysInMonth (d.addMonths k).year (d.addMonths k).month ∧
      1 ≤ (d.addMonths k).month ∧ (d.addMonths k).month ≤ 12) := by
  refine ⟨fun next => rfl,
    fun next => by simp [RecurringTransaction.calculate_next_execution_date, recWith],
    fun next => by simp [RecurringTransaction.calculate_next_execution_date, recWith],
    fun next => by simp [RecurringTransaction.calculate_next_execution_date, recWith],
    fun next => by simp [RecurringTransaction.calculate_next_execution_date, recWith],
    by decide, by decide, by decide, by decide, by decide,
    fun d k => ?_⟩
  exact ⟨by simp [Date.addMonths], by simp [Date.addMonths],
    by simp [Date.addMonths]; omega⟩

/-- Helper: a definition that is not executable yields a pure no-op. -/
lemma execute_not_executable (today : Date) (now : Nat)
    (r : RecurringTransaction) (acc : Account)
    (h : r.can_execute today = false) :
    execute_recurring_transaction today now r acc = (false, r, acc, none) := by
  simp [execute_recurring_transaction, h]

/-- C8: `execute_recurring_transaction` mutates the definition only on
processor success — a non-executable definition is a pure no-op, a failed
processing run leaves the definition unchanged, and a successful run of a
definition with `max_executions = 1` and `execution_count = 0` completes it
so that the next call is a no-op. -/
theorem C8_execute_frame (today : Date) (now : Nat)
    (r : RecurringTransaction) (acc : Account) :
    (r.can_execute today = false →
      execute_recurring_transaction today now r acc = (false, r, acc, none)) ∧
    ((execute_recurring_transaction today now r acc).1 = false →
      (execute_recurring_transaction today now r acc).2.1 = r) ∧
    (r.can_execute today = true →
      r.max_executions = some 1 →
      r.execution_count = 0 →
      acc.can_debit (r.amount + calculate_transaction_fee r.amount "transfer") = true →
      (execute_recurring_transaction today now r acc).1 = true ∧
      (execute_recurring_transaction today now r acc).2.1.status = "completed" ∧
      (∀ today2 : Date, ∀ now2 : Nat,
        execute_recurring_transaction today2 now2
            (execute_recurring_transaction today now r acc).2.1
            (execute_recurring_transaction today now r acc).2.2.1 =
          (false, (execute_recurring_transaction today now r acc).2.1,
           (execute_recurring_transaction today now r acc).2.2.1, none))) := by
  refine ⟨fun hno => execute_not_executable today now r acc hno,
    fun hfail => ?_, fun hcan hmax hcount hdebit => ?_⟩
  · by_cases hce : r.can_execute today = false
    · simp [execute_not_executable today now r acc hce]
    · have hce' : r.can_execute today = true := by
        revert hce; cases r.can_execute today <;> simp
      cases hres : (process_transaction now acc (TxState.create
          (create_transfer r.amount ("Recurring: " ++ r.description)
            r.category r.recipient_account_number))).1 with
      | true => simp [execute_recurring_transaction, hce', hres] at hfail
      | false => simp [execute_recurring_transaction, hce', hres]
  · have hres := process_debit_ok now acc
      (TxState.create (create_transfer r.amount ("Recurring: " ++ r.description)
        r.category r.recipient_account_number)) rfl
      (by simpa [TxState.create, create_transfer] using hdebit)
    have h1 : (execute_recurring_transaction today now r acc).1 = true := by
      simp [execute_recurring_transaction, hcan, hres.1]
    have h2 : (execute_recurring_transaction today now r acc).2.1.status = "completed" := by
      simp [execute_recurring_transaction, hcan, hres.1, hmax, hcount, optNatTruthy]
    refine ⟨h1, h2, fun today2 now2 => ?_⟩
    have hne : ((execute_recurring_transaction today now r acc).2.1).can_execute today2 = false := by
      simp [RecurringTransaction.can_execute, h2]
    exact execute_not_executable today2 now2 _ _ hne

/-- Witness for C8: a due once-only definition executed against a funded
account completes, and the follow-up call is a no-op. -/
theorem C8_execute_frame_witness :
    (execute_recurring_transaction { year := 2024, month := 2, day := 1 } 9 recOnce acct200).1 = true ∧
    (execute_recurring_transaction { year := 2024, month := 2, day := 1 } 9 recOnce acct200).2.1.status = "completed" ∧
    execute_recurring_transaction { year := 2024, month := 3, day := 1 } 10
        (execute_recurring_transaction { year := 2024, month := 2, day := 1 } 9 recOnce acct200).2.1
        (execute_recurring_transaction { year := 2024, month := 2, day := 1 } 9 recOnce acct200).2.2.1 =
      (false,
       (execute_recurring_transaction { year := 2024, month := 2, day := 1 } 9 recOnce acct200).2.1,
       (execute_recurring_transaction { year := 2024, month := 2, day := 1 } 9 recOnce acct200).2.2.1, none) := by
  have h := (C8_execute_frame { year := 2024, month := 2, day := 1 } 9 recOnce acct200).2.2
    (by decide) rfl rfl
    (by norm_num [Account.can_debit, acct200, recOnce, recWith,
      calculate_transaction_fee, fee_rates])
  exact ⟨h.1, h.2.1, h.2.2 { year := 2024, month := 3, day := 1 } 10⟩

/-- C9: `cancel` succeeds exactly on status `pending` or `processing`,
setting status `cancelled` and the failure reason; on any other status it
returns `false` and leaves the transaction state and its log unchanged. -/
theorem C9_cancel (s : TxState) (reason : String) :
    ((s.cancel reason).1 = true ↔
      (s.mem.status = "pending" ∨ s.mem.status = "processing")) ∧
    ((s.mem.status = "pending" ∨ s.mem.status = "processing") →
      (s.cancel reason).2.mem.status = "cancelled" ∧
      (s.cancel reason).2.mem.failure_reason = reason) ∧
    (s.mem.status ≠ "pending" → s.mem.status ≠ "processing" →
      s.cancel reason = (false, s)) := by
  refine ⟨?_, fun h => ?_, fun h1 h2 => ?_⟩
  · constructor
    · intro h
      cases hc : s.mem.can_cancel with
      | false => simp [TxState.cancel, hc] at h
      | true =>
        simp only [Transaction.can_cancel, Bool.or_eq_true, decide_eq_true_eq] at hc
        exact hc
    · intro h
      have hc : s.mem.can_cancel = true := by
        simp [Transaction.can_cancel]
        tauto
      simp [TxState.cancel, hc]
  · have hc : s.mem.can_cancel = true := by
      simp [Transaction.can_cancel]
      tauto
    simp [TxState.cancel, hc, TxState.save]
  · have hc : s.mem.can_cancel = false := by
      simp [Transaction.can_cancel, h1, h2]
    simp [TxState.cancel, hc]

/-- Witness for C9: cancelling a completed transaction is a rejected no-op,
while cancelling a pending one succeeds and a second cancel is rejected
without mutation. -/
theorem C9_cancel_witness :
    TxState.cancel completedState "why" = (false, completedState) ∧
    ((TxState.create (debitTx 50 1)).cancel "user").1 = true ∧
    ((TxState.create (debitTx 50 1)).cancel "user").2.cancel "again"
      = (false, ((TxState.create (debitTx 50 1)).cancel "user").2) := by
  have h1 := (C9_cancel completedState "why").2.2
    (by simp [completedState, completedTx, debitTx])
    (by simp [completedState, completedTx, debitTx])
  have h2 := (C9_cancel (TxState.create (debitTx 50 1)) "user").1.mpr (Or.inl rfl)
  have hpre := (C9_cancel (TxState.create (debitTx 50 1)) "user").2.1 (Or.inl rfl)
  have h3 := (C9_cancel ((TxState.create (debitTx 50 1)).cancel "user").2 "again").2.2
    (by rw [hpre.1]; simp) (by rw [hpre.1]; simp)
  exact ⟨h1, h2, h3⟩

/-- C10: a recurring definition with `max_executions = 0` is treated as
unlimited — `can_execute` does not depend on the execution count, and an
execution never moves the status to `completed` through the
max-executions check. -/
theorem C10_zero_max_executions (r : RecurringTransaction) (today : Date)
    (acc : Account) (now : Nat) (hmax : r.max_executions = some 0) :
    (∀ c : Nat,
      RecurringTransaction.can_execute { r with execution_count := c } today =
      RecurringTransaction.can_execute { r with execution_count := 0 } today) ∧
    (execute_recurring_transaction today now r acc).2.1.status = r.status := by
  constructor
  · intro c
    simp [RecurringTransaction.can_execute, hmax, optNatTruthy]
  · by_cases hce : r.can_execute today = false
    · simp [execute_not_executable today now r acc hce]
    · have hce' : r.can_execute today = true := by
        revert hce; cases r.can_execute today <;> simp
      cases hres : (process_transaction now acc (TxState.create
          (create_transfer r.amount ("Recurring: " ++ r.description)
            r.category r.recipient_account_number))).1 with
      | false => simp [execute_recurring_transaction, hce', hres]
      | true => simp [execute_recurring_transaction, hce', hres, hmax, optNatTruthy]

/-- Witness for C10: the zero-limit fixture stays executable regardless of
its count and keeps its status after an execution. -/
theorem C10_zero_max_executions_witness :
    RecurringTransaction.can_execute { recZero with execution_count := 7 }
        { year := 2024, month := 2, day := 1 } =
      RecurringTransaction.can_execute { recZero with execution_count := 0 }
        { year := 2024, month := 2, day := 1 } ∧
    (execute_recurring_transaction { year := 2024, month := 2, day := 1 } 4 recZero acct200).2.1.status
      = recZero.status := by
  have h := C10_zero_max_executions recZero { year := 2024, month := 2, day := 1 } acct200 4 rfl
  exact ⟨h.1 7, h.2⟩

end Fintech
